import Mathlib

/-!
Shallow embedding of `facebook_test_user.py` (and `exception.py`): a helper
client for the Facebook Graph API handling test-user provisioning and token
retrieval.  HTTP responses are modelled by their observable content (the
decoded JSON body, or `none` when `response.json()` raises `ValueError`);
network effects are modelled as explicit request lists; Python exceptions are
modelled by an error type covering the exceptions the module can raise.
-/

/-- Python/JSON values as they occur in decoded Graph API response bodies and
in request parameters (`None`, booleans, strings, numbers, lists, objects). -/
inductive JVal where
  | jnull
  | jbool (b : Bool)
  | jstr (s : String)
  | jnum (n : Int)
  | jarr (xs : List JVal)
  | jobj (fields : List (String × JVal))

/-- A decoded JSON object body: association list of fields (Graph API bodies
that the module consumes are JSON objects). -/
abbrev JDict := List (String × JVal)

/-- Python truthiness (`bool(v)`) for the modelled values: `None`, `False`,
`""`, `0`, `[]`, `{}` are falsy, everything else truthy. -/
def truthy : JVal → Bool
  | .jnull => false
  | .jbool b => b
  | .jstr s => !s.isEmpty
  | .jnum n => n != 0
  | .jarr xs => !xs.isEmpty
  | .jobj fs => !fs.isEmpty

/-- Python truthiness of a `dict.get` result (`None` when the key is absent). -/
def truthyO : Option JVal → Bool
  | none => false
  | some v => truthy v

/-- `d.get(k)`: value of the first binding of `k`, or `None` (`none`) if absent. -/
def jget (d : JDict) (k : String) : Option JVal :=
  match d.find? (fun kv => kv.1 == k) with
  | some kv => some kv.2
  | none => none

/-- `k in d` for a Python dict. -/
def jHasKey (d : JDict) (k : String) : Bool :=
  d.any (fun kv => kv.1 == k)

/-- Python `x == s` where `x` is a `dict.get` result and `s` a string: `None`
and non-string values compare unequal to a string. -/
def pyEqStr : Option JVal → String → Bool
  | some (.jstr s), t => s == t
  | _, _ => false

/-- The exceptions observable from the module.  `responseError` and
`notFoundError` are `FacebookResponseError` / `FacebookNotFoundError` from
`exception.py`; `nameError` models evaluation of an undefined name (the
module references `FacebookAPIError`, which is neither imported nor defined);
`valueError` models an uncaught `ValueError` from `response.json()`;
`typeError` models iteration over `None`; `pyOther` covers Python behaviour
on response shapes outside the scope of this development (e.g. `.get` on a
non-dict list element). -/
inductive PyError where
  | responseError (msg : String)
  | notFoundError (msg : String)
  | nameError (undefinedName : String)
  | valueError (msg : String)
  | typeError (msg : String)
  | pyOther (msg : String)
deriving DecidableEq

/-- The network requests the module can issue (modelled abstractly by which
endpoint is hit). -/
inductive Request where
  | getAppAccessToken
  | listTestUsers
  | exchangeToken
  | clientCode
  | accounts
  | permissions
  | createTestUser (params : List (String × JVal))
  | deleteUser (id : String)

namespace FacebookUserAccess

/-- `FacebookUserAccess._get_json` (lines 94-107): decode the response body as
JSON (raising `FacebookResponseError` on `ValueError`), then raise
`FacebookResponseError` if the object has an `error` field, else return the
object.  The argument is the result of `response.json()` (`none` = raises
`ValueError`). -/
def _get_json (rj : Option JDict) : Except PyError JDict :=
  match rj with
  | none => .error (.responseError "Unexpected response. No JSON object could be decoded.")
  | some d =>
    if jHasKey d "error" then
      .error (.responseError "Error in response")
    else
      .ok d

/-- The scan of `get_access_token` (lines 119-127): iterate the `data` list
looking for a user whose `id` equals `str(self.id)`; on the first match,
return its `access_token` if truthy, else raise `FacebookResponseError`; if
the list is exhausted, raise `FacebookNotFoundError`.  A non-dict element
would raise `AttributeError` at `user.get` (outside this model's scope). -/
def scanUsers (uid : String) : List JVal → Except PyError JVal
  | [] => .error (.notFoundError "Unable to find user from response.")
  | .jobj fields :: rest =>
    if pyEqStr (jget fields "id") uid then
      match jget fields "access_token" with
      | some tok =>
        if truthy tok then .ok tok
        else .error (.responseError "User located, but does not have access_token.")
      | none => .error (.responseError "User located, but does not have access_token.")
    else
      scanUsers uid rest
  | _ :: _ => .error (.pyOther "AttributeError: list element has no attribute get")

/-- `FacebookUserAccess.get_access_token` (lines 109-127): list the app's test
users and scan for the caller's id.  `self._get_json(response).get('data')`
yields `None` when the `data` key is absent (iterating it raises `TypeError`),
and the JSON value of `data` otherwise (iterating `null` likewise raises
`TypeError`; only a list is iterated by the scan). -/
def get_access_token (uid : String) (rj : Option JDict) : Except PyError JVal :=
  match _get_json rj with
  | .error e => .error e
  | .ok d =>
    match jget d "data" with
    | none => .error (.typeError "NoneType object is not iterable")
    | some .jnull => .error (.typeError "NoneType object is not iterable")
    | some (.jarr users) => scanUsers uid users
    | some _ => .error (.pyOther "iteration over a non-list data value")

/-- A listing entry (element of the `data` list) that is a JSON object whose
`id` does not compare equal to `uid` (line 120's `user.get('id') == str(self.id)`). -/
def isNonMatchingUser (uid : String) (u : JVal) : Bool :=
  match u with
  | .jobj fields => !(pyEqStr (jget fields "id") uid)
  | _ => false

/-- The matched entry's `access_token` is absent or falsy
(line 122's `if not access_token`). -/
def tokenMissing (fields : JDict) : Bool :=
  match jget fields "access_token" with
  | none => true
  | some tok => !truthy tok

/-- Discriminator: the outcome is a raised `FacebookNotFoundError`. -/
def isNotFoundError (r : Except PyError JVal) : Bool :=
  match r with
  | .error (.notFoundError _) => true
  | _ => false

/-- Discriminator: the outcome is a raised `FacebookResponseError`. -/
def isResponseError (r : Except PyError JVal) : Bool :=
  match r with
  | .error (.responseError _) => true
  | _ => false

/-- Discriminator: the outcome is a normal return. -/
def isOk (r : Except PyError JVal) : Bool :=
  match r with
  | .ok _ => true
  | _ => false

/-- Python `s.partition('=')[::2]`: the part before the first `=` and the part
after it (the remainder is empty when no `=` occurs). -/
def partitionEq (s : String) : String × String :=
  match s.splitOn "=" with
  | [] => (s, "")
  | name :: rest => (name, String.intercalate "=" rest)

/-- The response-parsing loop shared by `get_app_access_token` (lines 47-50)
and `get_long_term_access_token` (lines 142-145): scan the `&`-separated
segments of the body and return the value of the first `access_token`
segment, if any. -/
def findAccessToken : List String → Option String
  | [] => none
  | p :: rest =>
    let nv := partitionEq p
    if nv.1 == "access_token" then some nv.2 else findAccessToken rest

/-- `FacebookUserAccess.get_app_access_token` (lines 33-52), response parsing:
split the body on `&`, return the first `access_token` value, else raise
`FacebookResponseError`. -/
def get_app_access_token (body : String) : Except PyError String :=
  match findAccessToken (body.splitOn "&") with
  | some v => .ok v
  | none => .error (.responseError "Could not determine application access token from response.")

/-- `FacebookUserAccess.get_long_term_access_token` (lines 129-147), response
parsing: same scan as the app-token fetch, but raises `FacebookNotFoundError`
when the token is absent. -/
def get_long_term_access_token (body : String) : Except PyError String :=
  match findAccessToken (body.splitOn "&") with
  | some v => .ok v
  | none => .error (.notFoundError "Unable to find access token from response.")

/-- `FacebookUserAccess.get_access_code` (lines 149-175), response handling.
Lines 163-166 and 168-169 `raise FacebookAPIError(...)`, but `FacebookAPIError`
is neither imported (line 5 imports only `FacebookResponseError` and
`FacebookNotFoundError`) nor defined anywhere in the repository, so evaluating
the raise expression raises `NameError` instead.  Otherwise line 171 re-parses
the body via `_get_json` (which succeeds, as the `error` key is absent) and
returns its `code` field, which may be `None` (line 174 only logs a warning). -/
def get_access_code (rj : Option JDict) : Except PyError (Option JVal) :=
  match rj with
  | none => .error (.nameError "FacebookAPIError")
  | some d =>
    if jHasKey d "error" then
      .error (.nameError "FacebookAPIError")
    else
      match _get_json (some d) with
      | .error e => .error e
      | .ok d2 => .ok (jget d2 "code")

/-- `FacebookUserAccess.get_page_data` (lines 177-202), response handling.
Lines 190-196 mirror `get_access_code`: the two `raise FacebookAPIError(...)`
statements evaluate an undefined name, raising `NameError`.  Otherwise the
`data` field is returned (possibly `None`, with only a warning log). -/
def get_page_data (rj : Option JDict) : Except PyError (Option JVal) :=
  match rj with
  | none => .error (.nameError "FacebookAPIError")
  | some d =>
    if jHasKey d "error" then
      .error (.nameError "FacebookAPIError")
    else
      .ok (jget d "data")

/-- `FacebookUserAccess.get_page_permissions` (lines 204-221), response
handling: `self._get_json(response).get('data')`. -/
def get_page_permissions (rj : Option JDict) : Except PyError (Option JVal) :=
  match _get_json rj with
  | .error e => .error e
  | .ok d => .ok (jget d "data")

/-- `FacebookUserAccess.get_permissions` (lines 223-234), response handling:
`self._get_json(response).get('data')`. -/
def get_permissions (rj : Option JDict) : Except PyError (Option JVal) :=
  match _get_json rj with
  | .error e => .error e
  | .ok d => .ok (jget d "data")

/-- Line 25 of `FacebookUserAccess.__init__`:
`kwargs.get('app_access_token', FacebookUserAccess.get_app_access_token())`.
Python evaluates the default argument of `dict.get` before the lookup, so the
static fetch — and its `GET /oauth/access_token` request — runs even when the
keyword was supplied; only the resulting attribute value depends on the
keyword.  Returns the value stored in `self.app_access_token` and the
requests issued by the line. -/
def init_app_access_token (kw_app_access_token : Option JVal) (fetched : JVal) :
    JVal × List Request :=
  let defaultValue := fetched
  let issued := [Request.getAppAccessToken]
  (kw_app_access_token.getD defaultValue, issued)

/-- The shared shape of the three lazy property getters `access_token`
(lines 54-58), `long_term_access_token` (lines 64-68) and `access_code`
(lines 74-78): if the backing attribute is falsy, call the underlying
`get_*` method (one network request, here assumed to succeed with value
`fetch`) and store its result; return the backing attribute.  Returns
(value returned, new backing attribute, requests issued). -/
def lazy_property_get (field : JVal) (fetch : JVal) (req : Request) :
    JVal × JVal × List Request :=
  if truthy field then (field, field, [])
  else (fetch, fetch, [req])

/-- Two successive reads of the same lazy property: the second read starts
from the backing attribute left by the first.  `fetch1`/`fetch2` are the
values the underlying `get_*` call would produce on the first/second read. -/
def lazy_property_get_twice (field0 fetch1 fetch2 : JVal) (req : Request) :
    JVal × JVal × List Request :=
  let r1 := lazy_property_get field0 fetch1 req
  let r2 := lazy_property_get r1.2.1 fetch2 req
  (r2.1, r2.2.1, r1.2.2 ++ r2.2.2)

end FacebookUserAccess

/-- The getter functions defined in the class body of `FacebookUserAccess`
(identified by the lines where their `def` appears). -/
inductive Getter where
  | access_token_get            -- lines 55-58
  | long_term_access_token_get  -- lines 65-68
  | access_code_get             -- lines 75-78
  | page_token_get              -- lines 85-88 (reads `self._page_token`, calls `self.get_page_token`)
deriving DecidableEq

/-- The setter functions defined in the class body of `FacebookUserAccess`. -/
inductive Setter where
  | access_token_set            -- lines 61-62
  | long_term_access_token_set  -- lines 71-72
  | access_code_set             -- lines 81-82
  | page_token_set              -- lines 91-92
deriving DecidableEq

/-- A Python `property` object: a getter and an optional setter. -/
structure PyProperty where
  fget : Getter
  fset : Option Setter
deriving DecidableEq

/-- `p.setter(f)`: builds a new property with the same getter as `p` and `f`
as setter (the semantics of the `@p.setter` decorator). -/
def PyProperty.withSetter (p : PyProperty) (s : Setter) : PyProperty :=
  { fget := p.fget, fset := some s }

namespace FacebookUserAccess

/-- Bind a name in the class-body namespace (a later binding shadows an
earlier one). -/
def bindAttr (env : List (String × PyProperty)) (k : String) (v : PyProperty) :
    List (String × PyProperty) :=
  (k, v) :: env

/-- Look a name up in the class-body namespace. -/
def lookupAttr (env : List (String × PyProperty)) (k : String) : Option PyProperty :=
  match env.find? (fun kv => kv.1 == k) with
  | some kv => some kv.2
  | none => none

/-- Executing `@decorated.setter` over a function named `boundName`: look up
the current value of `decoratedName`, build a property with its getter and
the new setter, and bind it to `boundName` (the decorated function's own
name).  An absent `decoratedName` would be a `NameError`; it does not occur
in this class body. -/
def applySetterDecorator (env : List (String × PyProperty))
    (decoratedName boundName : String) (s : Setter) : List (String × PyProperty) :=
  match lookupAttr env decoratedName with
  | some p => bindAttr env boundName (p.withSetter s)
  | none => env

/-- The property bindings produced by executing the class body of
`FacebookUserAccess` in source order (lines 54-92).  Note lines 90-92: the
setter for `page_token` is declared with `@access_code.setter`, so the
decorator builds its property from the `access_code` property — keeping the
`access_code` getter — and binds it to the name `page_token`, shadowing the
`page_token` property of lines 84-88. -/
def classDict : List (String × PyProperty) :=
  let e := bindAttr [] "access_token" ⟨.access_token_get, none⟩                      -- lines 54-58
  let e := applySetterDecorator e "access_token" "access_token" .access_token_set    -- lines 60-62
  let e := bindAttr e "long_term_access_token" ⟨.long_term_access_token_get, none⟩   -- lines 64-68
  let e := applySetterDecorator e "long_term_access_token" "long_term_access_token"
    .long_term_access_token_set                                                      -- lines 70-72
  let e := bindAttr e "access_code" ⟨.access_code_get, none⟩                         -- lines 74-78
  let e := applySetterDecorator e "access_code" "access_code" .access_code_set       -- lines 80-82
  let e := bindAttr e "page_token" ⟨.page_token_get, none⟩                           -- lines 84-88
  let e := applySetterDecorator e "access_code" "page_token" .page_token_set         -- lines 90-92
  e

/-- The backing attributes set by `FacebookUserAccess.__init__`
(lines 26-28, via the property setters). -/
structure AccessState where
  _access_token : JVal
  _long_term_access_token : JVal
  _access_code : JVal

/-- Run a getter on an instance.  The three lazy getters follow
`lazy_property_get` with their respective fetch requests; the shadowed
`page_token` getter of lines 85-88 would read the never-initialized
`self._page_token` (`AttributeError`) and call the undefined
`self.get_page_token`. -/
def runGetter : Getter → AccessState → JVal → Except PyError (JVal × JVal × List Request)
  | .access_token_get, st, fetch =>
    .ok (lazy_property_get st._access_token fetch .listTestUsers)
  | .long_term_access_token_get, st, fetch =>
    .ok (lazy_property_get st._long_term_access_token fetch .exchangeToken)
  | .access_code_get, st, fetch =>
    .ok (lazy_property_get st._access_code fetch .clientCode)
  | .page_token_get, _, _ =>
    .error (.pyOther "AttributeError: _page_token is never initialized")

/-- Reading `instance.<name>` for a property `name`: dispatch to the getter
recorded in the class dict (`AttributeError` if the name is unbound). -/
def readProperty (name : String) (st : AccessState) (fetch : JVal) :
    Except PyError (JVal × JVal × List Request) :=
  match lookupAttr classDict name with
  | some p => runGetter p.fget st fetch
  | none => .error (.pyOther "AttributeError: no such attribute")

end FacebookUserAccess

namespace TestUser

/-- Class-level default (line 243). -/
def generate_user_installed : Bool := true

/-- Class-level default (line 244). -/
def generate_user_permissions : String := "email"

/-- Class-level default (line 246).  `generate_name` (line 245) and
`generate_user_id` (line 248) are `None`. -/
def generate_user_locale : String := "en_US"

/-- Line 263 of `TestUser.__init__`:
`kwargs.get('app_access_token', FacebookUserAccess.get_app_access_token())`.
As on line 25, the default argument is evaluated eagerly, so the fetch request
is issued even when the keyword was supplied. -/
def init_app_access_token (kw_app_access_token : Option JVal) (fetched : JVal) :
    JVal × List Request :=
  let defaultValue := fetched
  let issued := [Request.getAppAccessToken]
  (kw_app_access_token.getD defaultValue, issued)

/-- The `params` dict built by `TestUser.generate_user` (lines 299-306): the
six candidate parameters with their class-level defaults, then
`dict((k, v) for k, v in params.iteritems() if v)` removes every falsy-valued
entry.  Each `Option` argument is the keyword passed by the caller (`none` =
keyword absent, so the class-level default is used; `generate_name` and
`generate_user_id` default to `None`). -/
def generate_user_params (installed permissions name locale id : Option JVal)
    (app_access_token : JVal) : List (String × JVal) :=
  let params : List (String × JVal) :=
    [("installed", .jbool (truthy (installed.getD (.jbool generate_user_installed)))),
     ("permissions", permissions.getD (.jstr generate_user_permissions)),
     ("name", name.getD .jnull),
     ("locale", locale.getD (.jstr generate_user_locale)),
     ("id", id.getD .jnull),
     ("access_token", app_access_token)]
  params.filter (fun kv => truthy kv.2)

/-- Response handling of `TestUser.generate_user` (lines 309-314):
`response.json()` is called with no surrounding `try`, so an undecodable body
lets the `ValueError` propagate uncaught; a decoded object with an `error`
field raises `FacebookResponseError`; otherwise the object is returned. -/
def generate_user_parse (rj : Option JDict) : Except PyError JDict :=
  match rj with
  | none => .error (.valueError "No JSON object could be decoded")
  | some d =>
    if jHasKey d "error" then
      .error (.responseError "Error generating test user")
    else
      .ok d

/-- The observable effects of `TestUser.__del__`. -/
inductive TeardownEffect where
  | httpDelete (id : String) (access_token : String)  -- `requests.delete(FB_HOST + "/%s" % id, params)`
  | logInfo (msg : String)
deriving DecidableEq

/-- `TestUser.__del__` (lines 280-290): when `self.delete_user` is set, issue
the DELETE request keyed by id and app token and log the response text;
otherwise only log `"delete user: false"`.  `responseText` is the body of the
DELETE response when one is issued. -/
def teardown (delete_user : Bool) (id app_access_token responseText : String) :
    List TeardownEffect :=
  if delete_user then
    [.httpDelete id app_access_token, .logInfo ("delete user: " ++ responseText)]
  else
    [.logInfo "delete user: false"]

end TestUser

/-! ## Helper lemmas -/

/-- A key that is not in the dict (`jHasKey` false) yields `None` from `.get`. -/
theorem jget_eq_none_of_hasKey_false (d : JDict) (k : String)
    (h : jHasKey d k = false) : jget d k = none := by
  unfold jget
  have hf : d.find? (fun kv => kv.1 == k) = none := by
    rw [List.find?_eq_none]
    intro x hx
    unfold jHasKey at h
    have := (List.any_eq_false).mp h x hx
    simpa using this
  rw [hf]

/-- `.get` misses when no pair of the dict carries the key. -/
theorem jget_eq_none_of_keys_ne (d : JDict) (k : String)
    (h : ∀ p ∈ d, p.1 ≠ k) : jget d k = none := by
  unfold jget
  have hf : d.find? (fun kv => kv.1 == k) = none := by
    rw [List.find?_eq_none]
    intro x hx
    simpa using h x hx
  rw [hf]

/-- The scan of lines 119-127 exhausts a list of non-matching entries and
raises `FacebookNotFoundError`. -/
theorem scanUsers_notFound (uid : String) (users : List JVal)
    (h : ∀ u ∈ users, FacebookUserAccess.isNonMatchingUser uid u = true) :
    FacebookUserAccess.scanUsers uid users =
      .error (.notFoundError "Unable to find user from response.") := by
  induction users with
  | nil => rfl
  | cons u rest ih =>
    have hu := h u (by simp)
    cases u with
    | jobj fields =>
      have hm : pyEqStr (jget fields "id") uid = false := by
        simpa [FacebookUserAccess.isNonMatchingUser] using hu
      simp [FacebookUserAccess.scanUsers, hm]
      exact ih (fun v hv => h v (by simp [hv]))
    | jnull => simp [FacebookUserAccess.isNonMatchingUser] at hu
    | jbool b => simp [FacebookUserAccess.isNonMatchingUser] at hu
    | jstr s => simp [FacebookUserAccess.isNonMatchingUser] at hu
    | jnum n => simp [FacebookUserAccess.isNonMatchingUser] at hu
    | jarr xs => simp [FacebookUserAccess.isNonMatchingUser] at hu

/-- The scan of lines 119-127 stops at the first matching entry and raises
`FacebookResponseError` when that entry's token is absent or falsy. -/
theorem scanUsers_match_missing_token (uid : String) (pre post : List JVal) (fields : JDict)
    (hpre : ∀ u ∈ pre, FacebookUserAccess.isNonMatchingUser uid u = true)
    (hmatch : pyEqStr (jget fields "id") uid = true)
    (htok : FacebookUserAccess.tokenMissing fields = true) :
    FacebookUserAccess.scanUsers uid (pre ++ .jobj fields :: post) =
      .error (.responseError "User located, but does not have access_token.") := by
  induction pre with
  | nil =>
    simp only [List.nil_append]
    unfold FacebookUserAccess.tokenMissing at htok
    cases hJ : jget fields "access_token" with
    | none => simp [FacebookUserAccess.scanUsers, hmatch, hJ]
    | some tok =>
      rw [hJ] at htok
      have : truthy tok = false := by simpa using htok
      simp [FacebookUserAccess.scanUsers, hmatch, hJ, this]
  | cons u rest ih =>
    have hu := hpre u (by simp)
    cases u with
    | jobj f2 =>
      have hm : pyEqStr (jget f2 "id") uid = false := by
        simpa [FacebookUserAccess.isNonMatchingUser] using hu
      simp only [List.cons_append]
      simp [FacebookUserAccess.scanUsers, hm]
      exact ih (fun v hv => hpre v (by simp [hv]))
    | jnull => simp [FacebookUserAccess.isNonMatchingUser] at hu
    | jbool b => simp [FacebookUserAccess.isNonMatchingUser] at hu
    | jstr s => simp [FacebookUserAccess.isNonMatchingUser] at hu
    | jnum n => simp [FacebookUserAccess.isNonMatchingUser] at hu
    | jarr xs => simp [FacebookUserAccess.isNonMatchingUser] at hu

/-! ## Claim theorems -/

/-- Claim C1 (code_bug): the spec says every JSON-expecting operation raises
`ResponseError` on an undecodable body.  `get_access_token`,
`get_page_permissions` and `get_permissions` do (via `_get_json`), but
`get_access_code` (line 166) and `get_page_data` (line 193) raise the
undefined name `FacebookAPIError` — a `NameError` — and
`TestUser.generate_user` (line 309) calls `response.json()` uncaught, letting
the `ValueError` propagate. -/
theorem malformed_json_error_kinds :
    FacebookUserAccess.get_access_code none = .error (.nameError "FacebookAPIError") ∧
    FacebookUserAccess.get_page_data none = .error (.nameError "FacebookAPIError") ∧
    TestUser.generate_user_parse none =
      .error (.valueError "No JSON object could be decoded") ∧
    FacebookUserAccess.get_access_token "1" none =
      .error (.responseError "Unexpected response. No JSON object could be decoded.") ∧
    FacebookUserAccess.get_page_permissions none =
      .error (.responseError "Unexpected response. No JSON object could be decoded.") ∧
    FacebookUserAccess.get_permissions none =
      .error (.responseError "Unexpected response. No JSON object could be decoded.") :=
  ⟨rfl, rfl, rfl, rfl, rfl, rfl⟩

/-- Claim C2 (code_bug): the spec says every operation raises `ResponseError`
when the decoded object has an `error` field.  `get_access_token`,
`get_page_permissions`, `get_permissions` (via `_get_json`) and
`TestUser.generate_user` (line 312) do, but `get_access_code` (line 169) and
`get_page_data` (line 196) evaluate the undefined name `FacebookAPIError`,
raising `NameError`. -/
theorem error_field_error_kinds :
    FacebookUserAccess.get_access_code (some [("error", .jstr "boom")]) =
      .error (.nameError "FacebookAPIError") ∧
    FacebookUserAccess.get_page_data (some [("error", .jstr "boom")]) =
      .error (.nameError "FacebookAPIError") ∧
    FacebookUserAccess.get_access_token "1" (some [("error", .jstr "boom")]) =
      .error (.responseError "Error in response") ∧
    FacebookUserAccess.get_page_permissions (some [("error", .jstr "boom")]) =
      .error (.responseError "Error in response") ∧
    FacebookUserAccess.get_permissions (some [("error", .jstr "boom")]) =
      .error (.responseError "Error in response") ∧
    TestUser.generate_user_parse (some [("error", .jstr "boom")]) =
      .error (.responseError "Error generating test user") :=
  ⟨rfl, rfl, rfl, rfl, rfl, rfl⟩

/-- Claim C3 (code_bug): supplying `app_access_token` populates the attribute
with the supplied value, but the fetch still runs at construction — Python
evaluates `dict.get`'s default argument `FacebookUserAccess.get_app_access_token()`
eagerly (lines 25 and 263), so the `GET /oauth/access_token` request is issued
even when the keyword is present, contradicting the docstring
"fetches from API if not passed". -/
theorem app_token_fetched_even_when_supplied :
    FacebookUserAccess.init_app_access_token (some (.jstr "SUPPLIED")) (.jstr "FETCHED") =
      (.jstr "SUPPLIED", [Request.getAppAccessToken]) ∧
    TestUser.init_app_access_token (some (.jstr "SUPPLIED")) (.jstr "FETCHED") =
      (.jstr "SUPPLIED", [Request.getAppAccessToken]) :=
  ⟨rfl, rfl⟩

/-- Claim C4 counterexample: a listing whose matching entry lacks an
`access_token` makes `get_access_token` raise `FacebookResponseError`
(line 123), not `FacebookNotFoundError` as the claim states. -/
theorem matched_user_missing_token_not_notfound :
    FacebookUserAccess.isNotFoundError (FacebookUserAccess.get_access_token "7"
      (some [("data", JVal.jarr [JVal.jobj [("id", JVal.jstr "7")]])])) = false ∧
    FacebookUserAccess.get_access_token "7"
      (some [("data", JVal.jarr [JVal.jobj [("id", JVal.jstr "7")]])]) =
      .error (.responseError "User located, but does not have access_token.") :=
  ⟨rfl, rfl⟩

/-- Claim C4 (amended): for every well-formed error-free listing whose first
`data` entry with id string-equal to the requested subject id has an absent or
empty `access_token`, `get_access_token` fails by raising
`FacebookResponseError` (line 123). -/
theorem matched_user_missing_token_raises_response_error
    (uid : String) (d : JDict) (pre post : List JVal) (fields : JDict)
    (herr : jHasKey d "error" = false)
    (hdata : jget d "data" = some (.jarr (pre ++ .jobj fields :: post)))
    (hpre : ∀ u ∈ pre, FacebookUserAccess.isNonMatchingUser uid u = true)
    (hmatch : pyEqStr (jget fields "id") uid = true)
    (htok : FacebookUserAccess.tokenMissing fields = true) :
    FacebookUserAccess.get_access_token uid (some d) =
      .error (.responseError "User located, but does not have access_token.") := by
  unfold FacebookUserAccess.get_access_token
  simp [FacebookUserAccess._get_json, herr, hdata,
        scanUsers_match_missing_token uid pre post fields hpre hmatch htok]

/-- Claim C4 amended-theorem witness: concrete listing whose matching entry
carries an empty-string token. -/
theorem matched_user_missing_token_raises_response_error_witness :
    pyEqStr (jget [("id", JVal.jstr "42"), ("access_token", JVal.jstr "")] "id") "42" = true ∧
    FacebookUserAccess.tokenMissing [("id", JVal.jstr "42"), ("access_token", JVal.jstr "")] = true ∧
    FacebookUserAccess.get_access_token "42"
      (some [("data", JVal.jarr
        [JVal.jobj [("id", JVal.jstr "42"), ("access_token", JVal.jstr "")]])]) =
      .error (.responseError "User located, but does not have access_token.") :=
  ⟨rfl, rfl,
   matched_user_missing_token_raises_response_error "42"
     [("data", JVal.jarr [JVal.jobj [("id", JVal.jstr "42"), ("access_token", JVal.jstr "")]])]
     [] [] [("id", JVal.jstr "42"), ("access_token", JVal.jstr "")]
     rfl rfl (by simp) rfl rfl⟩

/-- Claim C5 (confirmed): for each lazy accessor shape (`access_token`,
`long_term_access_token`, `access_code`), when the backing attribute starts
out falsy and the first read fetches a truthy value, the second read returns
the cached value and issues no request: exactly one request occurs across the
two reads. -/
theorem lazy_accessor_single_fetch (field0 fetch1 fetch2 : JVal) (req : Request)
    (h0 : truthy field0 = false) (h1 : truthy fetch1 = true) :
    FacebookUserAccess.lazy_property_get_twice field0 fetch1 fetch2 req =
      (fetch1, fetch1, [req]) := by
  unfold FacebookUserAccess.lazy_property_get_twice FacebookUserAccess.lazy_property_get
  simp [h0, h1]

/-- Claim C5 witness: an unpopulated attribute and a non-empty fetched token. -/
theorem lazy_accessor_single_fetch_witness :
    truthy JVal.jnull = false ∧ truthy (JVal.jstr "TOKEN") = true ∧
    FacebookUserAccess.lazy_property_get_twice JVal.jnull (JVal.jstr "TOKEN")
      (JVal.jstr "OTHER") Request.listTestUsers =
      (JVal.jstr "TOKEN", JVal.jstr "TOKEN", [Request.listTestUsers]) :=
  ⟨rfl, rfl, lazy_accessor_single_fetch JVal.jnull (JVal.jstr "TOKEN")
    (JVal.jstr "OTHER") Request.listTestUsers rfl rfl⟩

/-- Claim C6 (confirmed): with `permissions=""` and `name=None` (whether the
`name` keyword is absent — its default is `None` — or passed as `None`), the
filtered `params` dict of `TestUser.generate_user` (line 306) carries neither
a `permissions` nor a `name` key, for any values of the other options. -/
theorem generate_user_omits_falsy_options
    (installed locale id name : Option JVal) (tok : JVal)
    (hname : name = none ∨ name = some JVal.jnull) :
    jget (TestUser.generate_user_params installed (some (.jstr "")) name locale id tok)
      "permissions" = none ∧
    jget (TestUser.generate_user_params installed (some (.jstr "")) name locale id tok)
      "name" = none := by
  have hnull : name.getD JVal.jnull = JVal.jnull := by
    rcases hname with h | h <;> simp [h]
  have hkeys : ∀ p ∈ TestUser.generate_user_params installed (some (.jstr "")) name locale id tok,
      p.1 ≠ "permissions" ∧ p.1 ≠ "name" := by
    intro p hp
    simp only [TestUser.generate_user_params] at hp
    rw [List.mem_filter] at hp
    obtain ⟨hmem, htr⟩ := hp
    rw [hnull] at hmem
    simp only [List.mem_cons, List.not_mem_nil, or_false] at hmem
    rcases hmem with h1|h1|h1|h1|h1|h1 <;> subst h1
    · exact ⟨by simp, by simp⟩
    · exact absurd htr (by decide)
    · exact absurd htr (by decide)
    · exact ⟨by simp, by simp⟩
    · exact ⟨by simp, by simp⟩
    · exact ⟨by simp, by simp⟩
  exact ⟨jget_eq_none_of_keys_ne _ _ (fun p hp => (hkeys p hp).1),
         jget_eq_none_of_keys_ne _ _ (fun p hp => (hkeys p hp).2)⟩

/-- Claim C6 witness: default options with `permissions=""` and `name=None`. -/
theorem generate_user_omits_falsy_options_witness :
    ((some JVal.jnull : Option JVal) = none ∨ (some JVal.jnull : Option JVal) = some JVal.jnull) ∧
    (jget (TestUser.generate_user_params none (some (.jstr "")) (some JVal.jnull) none none
      (.jstr "APPTOK")) "permissions" = none ∧
     jget (TestUser.generate_user_params none (some (.jstr "")) (some JVal.jnull) none none
      (.jstr "APPTOK")) "name" = none) :=
  ⟨Or.inr rfl,
   generate_user_omits_falsy_options none none none (some JVal.jnull) (.jstr "APPTOK")
     (Or.inr rfl)⟩

/-- Claim C7 (confirmed): a well-formed, error-free listing whose `data`
entries are all objects with no id string-equal to the requested subject id
makes `get_access_token` raise `FacebookNotFoundError` (line 127). -/
theorem no_matching_user_raises_notfound (uid : String) (d : JDict) (users : List JVal)
    (herr : jHasKey d "error" = false)
    (hdata : jget d "data" = some (.jarr users))
    (hall : ∀ u ∈ users, FacebookUserAccess.isNonMatchingUser uid u = true) :
    FacebookUserAccess.get_access_token uid (some d) =
      .error (.notFoundError "Unable to find user from response.") := by
  unfold FacebookUserAccess.get_access_token
  simp [FacebookUserAccess._get_json, herr, hdata, scanUsers_notFound uid users hall]

/-- Claim C7 witness: a listing with one user whose id differs from the
requested id. -/
theorem no_matching_user_raises_notfound_witness :
    jHasKey [("data", JVal.jarr [JVal.jobj [("id", JVal.jstr "1")]])] "error" = false ∧
    jget [("data", JVal.jarr [JVal.jobj [("id", JVal.jstr "1")]])] "data" =
      some (JVal.jarr [JVal.jobj [("id", JVal.jstr "1")]]) ∧
    FacebookUserAccess.get_access_token "42"
      (some [("data", JVal.jarr [JVal.jobj [("id", JVal.jstr "1")]])]) =
      .error (.notFoundError "Unable to find user from response.") :=
  ⟨rfl, rfl,
   no_matching_user_raises_notfound "42"
     [("data", JVal.jarr [JVal.jobj [("id", JVal.jstr "1")]])]
     [JVal.jobj [("id", JVal.jstr "1")]] rfl rfl (by decide)⟩

/-- Claim C8 (confirmed): `TestUser.__del__` with `delete_user = False` issues
no DELETE request; its only effect is the log entry `"delete user: false"`
(lines 289-290). -/
theorem teardown_flag_false_no_delete (id tok text : String) :
    TestUser.teardown false id tok text =
      [TestUser.TeardownEffect.logInfo "delete user: false"] ∧
    ∀ i t, TestUser.TeardownEffect.httpDelete i t ∉ TestUser.teardown false id tok text := by
  refine ⟨rfl, ?_⟩
  intro i t
  simp [TestUser.teardown]

/-- Claim C9 (confirmed): on a decoded, error-free object with no `data`
field, line 119 iterates over `None` (`.get('data')` returns `None`), so
`get_access_token` raises `TypeError` — it neither returns a token nor raises
`FacebookNotFoundError` or `FacebookResponseError`. -/
theorem missing_data_field_raises_type_error (uid : String) (d : JDict)
    (herr : jHasKey d "error" = false)
    (hdata : jHasKey d "data" = false) :
    FacebookUserAccess.get_access_token uid (some d) =
      .error (.typeError "NoneType object is not iterable") ∧
    FacebookUserAccess.isOk (FacebookUserAccess.get_access_token uid (some d)) = false ∧
    FacebookUserAccess.isNotFoundError (FacebookUserAccess.get_access_token uid (some d)) = false ∧
    FacebookUserAccess.isResponseError (FacebookUserAccess.get_access_token uid (some d)) = false := by
  have hget := jget_eq_none_of_hasKey_false d "data" hdata
  have heq : FacebookUserAccess.get_access_token uid (some d) =
      .error (.typeError "NoneType object is not iterable") := by
    unfold FacebookUserAccess.get_access_token
    simp [FacebookUserAccess._get_json, herr, hget]
  exact ⟨heq, by rw [heq]; rfl, by rw [heq]; rfl, by rw [heq]; rfl⟩

/-- Claim C9 witness: an error-free object with only a `paging` field. -/
theorem missing_data_field_raises_type_error_witness :
    jHasKey [("paging", JVal.jnull)] "error" = false ∧
    jHasKey [("paging", JVal.jnull)] "data" = false ∧
    (FacebookUserAccess.get_access_token "9" (some [("paging", JVal.jnull)]) =
      .error (.typeError "NoneType object is not iterable") ∧
     FacebookUserAccess.isOk (FacebookUserAccess.get_access_token "9"
      (some [("paging", JVal.jnull)])) = false ∧
     FacebookUserAccess.isNotFoundError (FacebookUserAccess.get_access_token "9"
      (some [("paging", JVal.jnull)])) = false ∧
     FacebookUserAccess.isResponseError (FacebookUserAccess.get_access_token "9"
      (some [("paging", JVal.jnull)])) = false) :=
  ⟨rfl, rfl, missing_data_field_raises_type_error "9" [("paging", JVal.jnull)] rfl rfl⟩

/-- Claim C10 (confirmed): because lines 90-92 declare the `page_token` setter
with `@access_code.setter`, the class attribute `page_token` ends up as a
property whose getter is `access_code`'s getter; reading it performs the
cached-or-lazily-fetched access-code read, identical to reading
`access_code`, and the dead getter of lines 85-88 is shadowed. -/
theorem page_token_reads_access_code (st : FacebookUserAccess.AccessState) (fetch : JVal) :
    FacebookUserAccess.readProperty "page_token" st fetch =
      .ok (FacebookUserAccess.lazy_property_get st._access_code fetch Request.clientCode) ∧
    FacebookUserAccess.readProperty "page_token" st fetch =
      FacebookUserAccess.readProperty "access_code" st fetch ∧
    (FacebookUserAccess.lookupAttr FacebookUserAccess.classDict "page_token").map
      PyProperty.fget = some Getter.access_code_get :=
  ⟨rfl, rfl, rfl⟩
